import Mathlib

/-!
Shallow embedding of the posthog-snowflake-import-plugin core (index.ts):
the checkpoint arithmetic of `setupPlugin`/`teardownPlugin`, the batch job
`importAndIngestEvents`, and the row-to-event transformations, together
with theorems settling the specification claims about them.

JavaScript numbers that take part in the checkpoint arithmetic are
modelled as rationals (`ℚ`), because `setupPlugin` divides the durable
offset by the batch size (`Number(offset) / Number(config.batchSize)`),
which in JavaScript is exact real division, not integer division, at the
magnitudes involved here.
-/

/-- The fields of a JavaScript `Date` that `formatDateToIsoString` reads:
`getFullYear`, `getMonth` (0-based), `getDate`, `getHours`, `getMinutes`,
`getSeconds` and `getTimezoneOffset` (minutes, sign as in JS). -/
structure JsDate where
  fullYear : Int
  month : Int
  dayOfMonth : Int
  hours : Int
  minutes : Int
  seconds : Int
  timezoneOffset : Int
deriving DecidableEq, Repr

/-- Model of a JavaScript runtime value as far as the transformations
manipulate them: JSON scalars, objects (insertion-ordered key/value
lists, unique keys), arrays, `undefined`, and `Date` objects. -/
inductive JsVal where
  | undef : JsVal
  | null : JsVal
  | bool (b : Bool) : JsVal
  | num (n : Int) : JsVal
  | str (s : String) : JsVal
  | arr (elems : List JsVal) : JsVal
  | obj (fields : List (String × JsVal)) : JsVal
  | date (d : JsDate) : JsVal

/-- A JavaScript object payload: insertion-ordered association list. -/
abbrev JsObj := List (String × JsVal)

/-- Property read `o[k]`: `undefined` when the key is absent. -/
def jsGet (o : JsObj) (k : String) : JsVal :=
  match o.find? (fun p => p.1 == k) with
  | some p => p.2
  | none => JsVal.undef

/-- Property write `o[k] = v`: updates the existing key in place
(JavaScript objects keep the original insertion position) or appends. -/
def jsSet (o : JsObj) (k : String) (v : JsVal) : JsObj :=
  if o.any (fun p => p.1 == k) then
    o.map (fun p => if p.1 == k then (k, v) else p)
  else
    o ++ [(k, v)]

/-- Object spread `{...base, ...extra}` restricted to object sources:
folds `jsSet` over the extra fields in order. -/
def jsSpread (base : JsObj) (extra : JsObj) : JsObj :=
  extra.foldl (fun acc p => jsSet acc p.1 p.2) base

/-- JavaScript truthiness of a value. -/
def jsTruthy : JsVal → Bool
  | JsVal.undef => false
  | JsVal.null => false
  | JsVal.bool b => b
  | JsVal.num n => decide (n ≠ 0)
  | JsVal.str s => decide (s ≠ "")
  | JsVal.arr _ => true
  | JsVal.obj _ => true
  | JsVal.date _ => true

/-! ### JSON parsing

`JSON.parse` is a platform builtin, modelled here for the fragment the
plugin's inputs exercise: whitespace, `null`, booleans, integer numbers,
escape-free strings, arrays and objects.  (Fractions, exponents and
string escapes are not modelled; no claim depends on them.) -/

/-- JSON insignificant whitespace. -/
def jsonWs (c : Char) : Bool :=
  c = ' ' || c = '\n' || c = '\t' || c = '\r'

/-- Drop leading JSON whitespace. -/
def skipWs (cs : List Char) : List Char :=
  cs.dropWhile jsonWs

/-- The `\x7b` brace character opening a JSON object. -/
def lbraceChar : Char := Char.ofNat 123

/-- The `\x7d` brace character closing a JSON object. -/
def rbraceChar : Char := Char.ofNat 125

/-- The double-quote character delimiting a JSON string. -/
def quoteChar : Char := Char.ofNat 34

/-- Decimal digits to a natural number. -/
def digitsToNat (ds : List Char) : Nat :=
  ds.foldl (fun acc c => acc * 10 + (c.toNat - 48)) 0

/-- Parse the body of a JSON string, positioned after the opening quote;
returns the string and the input after the closing quote. -/
def parseStrBody (cs : List Char) : Option (String × List Char) :=
  let content := cs.takeWhile (fun c => c ≠ quoteChar)
  match cs.dropWhile (fun c => c ≠ quoteChar) with
  | c :: rest => if c = quoteChar then some (String.mk content, rest) else none
  | [] => none

/-- Parse a JSON integer literal starting at `cs` (optional minus sign). -/
def parseNum (cs : List Char) : Option (JsVal × List Char) :=
  match cs with
  | c :: rest =>
    if c = '-' then
      let ds := rest.takeWhile Char.isDigit
      if ds.isEmpty then none
      else some (JsVal.num (-(digitsToNat ds : Int)), rest.dropWhile Char.isDigit)
    else
      let ds := cs.takeWhile Char.isDigit
      if ds.isEmpty then none
      else some (JsVal.num (digitsToNat ds : Int), cs.dropWhile Char.isDigit)
  | [] => none

mutual

/-- Fueled recursive-descent parser for one JSON value. -/
def parseVal (fuel : Nat) (cs : List Char) : Option (JsVal × List Char) :=
  match fuel with
  | 0 => none
  | fuel + 1 =>
    match skipWs cs with
    | [] => none
    | c :: rest =>
      if c = quoteChar then
        (parseStrBody rest).map (fun p => (JsVal.str p.1, p.2))
      else if c = lbraceChar then
        match skipWs rest with
        | c2 :: r2 =>
          if c2 = rbraceChar then some (JsVal.obj [], r2)
          else (parseMembers fuel (c2 :: r2)).map (fun p => (JsVal.obj p.1, p.2))
        | [] => none
      else if c = '[' then
        match skipWs rest with
        | c2 :: r2 =>
          if c2 = ']' then some (JsVal.arr [], r2)
          else (parseElems fuel (c2 :: r2)).map (fun p => (JsVal.arr p.1, p.2))
        | [] => none
      else
        match c :: rest with
        | 't' :: 'r' :: 'u' :: 'e' :: r => some (JsVal.bool true, r)
        | 'f' :: 'a' :: 'l' :: 's' :: 'e' :: r => some (JsVal.bool false, r)
        | 'n' :: 'u' :: 'l' :: 'l' :: r => some (JsVal.null, r)
        | cs2 => parseNum cs2

/-- Fueled parser for the members of a JSON object (after the opening
brace, at least one member), up to and including the closing brace. -/
def parseMembers (fuel : Nat) (cs : List Char) : Option (JsObj × List Char) :=
  match fuel with
  | 0 => none
  | fuel + 1 =>
    match skipWs cs with
    | c :: rest =>
      if c = quoteChar then
        match parseStrBody rest with
        | some (k, r1) =>
          match skipWs r1 with
          | c2 :: r2 =>
            if c2 = ':' then
              match parseVal fuel r2 with
              | some (v, r3) =>
                match skipWs r3 with
                | c3 :: r4 =>
                  if c3 = ',' then
                    (parseMembers fuel r4).map (fun p => ((k, v) :: p.1, p.2))
                  else if c3 = rbraceChar then some ([(k, v)], r4)
                  else none
                | [] => none
              | none => none
            else none
          | [] => none
        | none => none
      else none
    | [] => none

/-- Fueled parser for the elements of a JSON array (after the opening
bracket, at least one element), up to and including the closing bracket. -/
def parseElems (fuel : Nat) (cs : List Char) : Option (List JsVal × List Char) :=
  match fuel with
  | 0 => none
  | fuel + 1 =>
    match parseVal fuel cs with
    | some (v, r1) =>
      match skipWs r1 with
      | c :: r2 =>
        if c = ',' then
          (parseElems fuel r2).map (fun p => (v :: p.1, p.2))
        else if c = ']' then some ([v], r2)
        else none
      | [] => none
    | none => none

end

/-- `JSON.parse` on a string: parse one value, require only whitespace to
remain.  The fuel bound exceeds the recursion depth any input of this
length can force. -/
def parseJson (s : String) : Option JsVal :=
  match parseVal (2 * s.length + 8) s.data with
  | some (v, rest) => if (skipWs rest).isEmpty then some v else none
  | none => none

/-! ### Row-to-event transformations -/

/-- The shape of `TransformedPluginEvent` as produced by the
transformations under study: an event name value and a properties
object.  (The optional top-level `distinct_id`/`timestamp` fields of the
TypeScript interface are never set by these transforms; both are nested
inside `properties`.) -/
structure TransformedPluginEvent where
  event : JsVal
  properties : JsObj

/-- JavaScript `String(v)` coercion for the values the transforms
coerce.  Array and `Date` stringification is not modelled (no claim
exercises it). -/
def jsCoerceToString : JsVal → String
  | JsVal.undef => "undefined"
  | JsVal.null => "null"
  | JsVal.bool b => if b then "true" else "false"
  | JsVal.num n => toString n
  | JsVal.str s => s
  | JsVal.arr _ => ""
  | JsVal.obj _ => "[object Object]"
  | JsVal.date _ => ""

/-- `JSON.parse(v)` for an arbitrary argument: JavaScript coerces the
argument to a string first; parse failure is a thrown `SyntaxError`. -/
def jsonParseArg (v : JsVal) : Option JsVal :=
  parseJson (jsCoerceToString v)

/-- Strict equality `v === s` between a value and a string literal. -/
def jsStrictEqStr (v : JsVal) (s : String) : Bool :=
  match v with
  | JsVal.str t => t == s
  | _ => false

/-- The `default` transformation: destructures `timestamp`,
`distinct_id`, `event` and `properties` from the row, JSON-parses the
`properties` column and spreads it into the output properties between
`distinct_id` and the `source: 'snowflake_import'` tag.  Spreading a
parsed non-object contributes no fields (faithful for numbers, booleans
and `null`; string spread into indexed characters is not modelled).  A
`JSON.parse` failure is an uncaught exception, modelled as an error. -/
def defaultTransform (row : JsObj) : Except String TransformedPluginEvent :=
  let timestamp := jsGet row "timestamp"
  let distinct_id := jsGet row "distinct_id"
  let event := jsGet row "event"
  let properties := jsGet row "properties"
  match jsonParseArg properties with
  | none => Except.error "SyntaxError: Unexpected token in JSON.parse"
  | some parsed =>
    let spreadFields := match parsed with
      | JsVal.obj fs => fs
      | _ => []
    Except.ok
      { event := event
        properties :=
          jsSet (jsSpread [("timestamp", timestamp), ("distinct_id", distinct_id)] spreadFields)
            "source" (JsVal.str "snowflake_import") }

/-- The `JSON Map` transformation: requires the `rowToEventMap`
attachment (absence throws at invocation), JSON-parses it (invalid JSON
throws), then routes each row column whose mapping is truthy either to
the event name (mapping strictly equal to `'event'`) or into
`properties` under the mapped key; unmapped columns are dropped.
Indexing a mapping that parsed to `null` is not modelled (it would throw
in JavaScript); a non-object mapping yields `undefined` for every
column, as in JavaScript. -/
def jsonMapTransform (rowToEventMap : Option String) (row : JsObj) :
    Except String TransformedPluginEvent :=
  match rowToEventMap with
  | none => Except.error "Row to event mapping JSON file not provided!"
  | some contents =>
    match parseJson contents with
    | none => Except.error "Row to event mapping JSON file contains invalid JSON!"
    | some m =>
      let mapGet := fun (k : String) =>
        match m with
        | JsVal.obj fs => jsGet fs k
        | _ => JsVal.undef
      let result := row.foldl
        (fun (acc : JsVal × JsObj) p =>
          if !(jsTruthy (mapGet p.1)) then acc
          else if jsStrictEqStr (mapGet p.1) "event" then (p.2, acc.2)
          else (acc.1, jsSet acc.2 (jsCoerceToString (mapGet p.1)) p.2))
        (JsVal.str "", ([] : JsObj))
      Except.ok { event := result.1, properties := result.2 }

/-- Padding helper inside `formatDateToIsoString`:
`Math.floor(Math.abs(num))` zero-padded to two digits. -/
def jsPad (q : ℚ) : String :=
  let norm : Int := Int.floor |q|
  (if norm < 10 then "0" else "") ++ toString norm

/-- `formatDateToIsoString`: fixed-offset ISO-8601 rendering of a `Date`
from its local-time fields, `YYYY-MM-DDTHH:mm:ss±HH:mm`.  JavaScript `/`
is real division (the quotient is floored inside `pad`) and `%` is the
truncated remainder, hence `Int.tmod`. -/
def formatDateToIsoString (d : JsDate) : String :=
  let tzo : Int := -d.timezoneOffset
  let dif : String := if 0 ≤ tzo then "+" else "-"
  toString d.fullYear ++ "-" ++ jsPad ((d.month : ℚ) + 1) ++ "-" ++ jsPad (d.dayOfMonth : ℚ) ++
    "T" ++ jsPad (d.hours : ℚ) ++ ":" ++ jsPad (d.minutes : ℚ) ++ ":" ++ jsPad (d.seconds : ℚ) ++
    dif ++ jsPad ((tzo : ℚ) / 60) ++ ":" ++ jsPad ((Int.tmod tzo 60 : ℚ))

/-- Applying `formatDateToIsoString` to a row value: throws a
`TypeError` unless the value is a `Date`. -/
def jsFormatDate (v : JsVal) : Except String String :=
  match v with
  | JsVal.date d => Except.ok (formatDateToIsoString d)
  | _ => Except.error "TypeError: date.getTimezoneOffset is not a function"

/-- A JavaScript `\w` word character. -/
def isWordChar (c : Char) : Bool :=
  c.isAlphanum || c = '_'

/-- Character-level engine of `toTitleCase`: each maximal regex match
`\w\S*` is replaced by its first character upper-cased followed by the
rest lower-cased. -/
def titleCaseChars : List Char → List Char
  | [] => []
  | c :: cs =>
    if isWordChar c then
      (c.toUpper :: (cs.takeWhile (fun x => !x.isWhitespace)).map Char.toLower)
        ++ titleCaseChars (cs.dropWhile (fun x => !x.isWhitespace))
    else
      c :: titleCaseChars cs
termination_by l => l.length
decreasing_by
  · exact Nat.lt_succ_of_le (List.dropWhile_sublist _).length_le
  · simp

/-- `toTitleCase` from index.ts. -/
def toTitleCase (s : String) : String :=
  String.mk (titleCaseChars s.data)

/-- `hay.includes(needle)` substring test. -/
def strIncludes (hay needle : String) : Bool :=
  hay.data.tails.any (fun t => needle.data.isPrefixOf t)

/-- Is the value `undefined` or `null`?  (Values dropped from the
Cleaned-Up Properties output.) -/
def isUndefOrNull : JsVal → Bool
  | JsVal.undef => true
  | JsVal.null => true
  | _ => false

/-- Property access `v.k`: throws on `undefined`/`null`, reads the field
of an object (absent gives `undefined`), and yields `undefined` on other
primitives (their wrapper-object properties are not modelled). -/
def jsFieldE (v : JsVal) (k : String) : Except String JsVal :=
  match v with
  | JsVal.undef => Except.error "TypeError: cannot read properties of undefined"
  | JsVal.null => Except.error "TypeError: cannot read properties of null"
  | JsVal.obj fs => Except.ok (jsGet fs k)
  | _ => Except.ok JsVal.undef

/-- `v.toUpperCase()`: throws unless the value is a string. -/
def jsToUpperE (v : JsVal) : Except String String :=
  match v with
  | JsVal.str s => Except.ok s.toUpper
  | _ => Except.error "TypeError: toUpperCase is not a function"

/-- `v.toLowerCase()`: throws unless the value is a string. -/
def jsToLowerE (v : JsVal) : Except String String :=
  match v with
  | JsVal.str s => Except.ok s.toLower
  | _ => Except.error "TypeError: toLowerCase is not a function"

/-- The `Cleaned-Up Properties` transformation: requires the
`propertyConfigJson` attachment (absence throws at invocation),
JSON-parses it (invalid JSON throws), reads the key-field column names
and the replacement dictionary, resolves the event/timestamp/identity
values with upper-case-then-lower-case lookup and `||` fallbacks,
rewrites every non-special column name (split on `_`, title-case each
segment, substitute truthy replacement-dictionary hits, rejoin with
spaces), drops `undefined`/`null` values, formats the timestamp column
and every property whose rewritten key contains `timestamp` as a
fixed-offset ISO string, and nests `timestamp`, `distinct_id` and
`source` under `properties` ahead of the spread of the rewritten row. -/
def cleanedUpTransform (propertyConfigJson : Option String) (row : JsObj) :
    Except String TransformedPluginEvent :=
  match propertyConfigJson with
  | none => Except.error "Configuration JSON file not provided!"
  | some contents =>
    match parseJson contents with
    | none => Except.error "Invalid JSON was provided!"
    | some transformationConfig => do
      let propertyColumns ← jsFieldE transformationConfig "propertyColumns"
      let kfEvent ← jsFieldE propertyColumns "event"
      let kfTimestamp ← jsFieldE propertyColumns "timestamp"
      let kfDistinctId ← jsFieldE propertyColumns "distinctId"
      let kfSource ← jsFieldE transformationConfig "dataSource"
      let replacements ← jsFieldE transformationConfig "replacements"
      let evUp ← jsToUpperE kfEvent
      let evLo ← jsToLowerE kfEvent
      let event := if jsTruthy (jsGet row evUp) then jsGet row evUp else jsGet row evLo
      let tsUp ← jsToUpperE kfTimestamp
      let tsLo ← jsToLowerE kfTimestamp
      let unformattedTimestamp :=
        if jsTruthy (jsGet row tsUp) then jsGet row tsUp else jsGet row tsLo
      let idUp ← jsToUpperE kfDistinctId
      let idLo ← jsToLowerE kfDistinctId
      let rawDistinctId :=
        if jsTruthy (jsGet row idUp) then jsGet row idUp else jsGet row idLo
      let distinct_id ←
        if jsTruthy rawDistinctId then pure rawDistinctId
        else jsFieldE transformationConfig "unmatchedUserDefault"
      let specialVals := [kfEvent, kfTimestamp, kfDistinctId, kfSource]
      let formattedRow ← row.foldlM
        (fun (acc : JsObj) p => do
          let segs := p.1.splitOn "_"
          let newSegs ← segs.mapM (fun seg => do
            let r ← jsFieldE replacements seg
            pure (if jsTruthy r then jsCoerceToString r else toTitleCase seg))
          let newKey := if jsStrictEqStr kfEvent p.1 then p.1 else String.intercalate " " newSegs
          if specialVals.any (fun v => jsStrictEqStr v p.1) then pure acc
          else pure (jsSet acc newKey p.2))
        ([] : JsObj)
      let properties := formattedRow.filter (fun p => !(isUndefOrNull p.2))
      let timestampStr ← jsFormatDate unformattedTimestamp
      let properties2 ← properties.mapM (fun p => do
        let lo ← jsToLowerE (JsVal.str p.1)
        if strIncludes lo "timestamp" then
          (jsFormatDate p.2).map (fun s => (p.1, JsVal.str s))
        else pure p)
      Except.ok
        { event := event
          properties :=
            jsSpread
              [("timestamp", JsVal.str timestampStr), ("distinct_id", distinct_id),
                ("source", kfSource)]
              properties2 }

/-! ### Checkpoint store: `setupPlugin` / `teardownPlugin` arithmetic -/

/-- `setupPlugin` line `global.initialOffset = Number(offset)`: the
durably stored offset becomes the in-memory initial offset. -/
def setupInitialOffset (storedOffset : ℚ) : ℚ :=
  storedOffset

/-- `setupPlugin` line
`cache.set(REDIS_OFFSET_KEY, Number(offset) / Number(config.batchSize))`:
the ephemeral counter is seeded with the durable offset divided by the
batch size (JavaScript real division). -/
def setupCacheCounter (storedOffset batchSize : ℚ) : ℚ :=
  storedOffset / batchSize

/-- `teardownPlugin`: `workerOffset = Number(redisOffset) * Number(config.batchSize)`,
then `offsetToStore = workerOffset > global.totalRows ? global.totalRows : workerOffset`,
then `storage.set(REDIS_OFFSET_KEY, offsetToStore)`.  Note the cap at
`totalRows` applies in both import mechanisms. -/
def teardownStoredOffset (counter batchSize totalRows : ℚ) : ℚ :=
  let workerOffset := counter * batchSize
  if workerOffset > totalRows then totalRows else workerOffset

/-- `setupPlugin` line `const offset = await storage.get(REDIS_OFFSET_KEY, 0)`
followed by `Number(offset)`: reloading the durable checkpoint returns
the stored value unchanged. -/
def loadInitialOffset (storedOffset : ℚ) : ℚ :=
  storedOffset

/-! ### Batch job runner: `importAndIngestEvents` -/

/-- `config.importMechanism`. -/
inductive ImportMechanism where
  | continuous : ImportMechanism
  | historical : ImportMechanism
deriving DecidableEq, Repr

/-- The configuration values `importAndIngestEvents` reads:
`Number(config.batchSize)`, `Number(config.frequency)` and the import
mechanism. -/
structure RunConfig where
  batchSize : ℚ
  frequency : ℚ
  mechanism : ImportMechanism

/-- The process-global state the job reads and writes: `global.initialOffset`,
the ephemeral cache counter under `REDIS_OFFSET_KEY`, and `global.totalRows`. -/
structure RunState where
  initialOffset : ℚ
  counter : ℚ
  totalRows : ℚ

/-- `ImportEventsJobPayload`: an optional `offset` and
`retriesPerformedSoFar`. -/
structure JobPayload where
  offset : Option ℚ
  retriesPerformedSoFar : Nat
deriving DecidableEq, Repr

/-- JavaScript truthiness of `payload.offset`: an absent offset and the
offset `0` are both falsy. -/
def truthyOffset : Option ℚ → Bool
  | some q => decide (q ≠ 0)
  | none => false

/-- The retry backoff of the fetch-failure path:
`2 ** payload.retriesPerformedSoFar * 3` seconds. -/
def nextRetrySeconds (n : Nat) : Nat :=
  2 ^ n * 3

/-- The offset the run queries at: the payload offset when truthy,
otherwise `global.initialOffset + redisIncrementedOffset * batchSize`. -/
def plannedOffset (cfg : RunConfig) (st : RunState) (payload : JobPayload) : ℚ :=
  if truthyOffset payload.offset then payload.offset.getD 0
  else st.initialOffset + st.counter * cfg.batchSize

/-- Which source branch ended the run: the early `return` of the
15-attempt abandonment check, the early `return` of the historical
watermark check, the fetch-failure branch (which schedules a retry and
then falls through the rest of the function), or the ordinary success
path. -/
inductive ExitKind where
  | abandoned : ExitKind
  | terminated : ExitKind
  | retry : ExitKind
  | success : ExitKind
deriving DecidableEq, Repr

/-- The observable outcome of one invocation of `importAndIngestEvents`:
the ephemeral counter after the run, the offset the fetch was issued at
(`none` when no query ran), the events passed to `posthog.capture` in
order, every follow-up invocation scheduled via
`jobs.importAndIngestEvents(...).runIn(delay, 'seconds')` with its delay
in seconds, and the branch that ended the run. -/
structure RunResult where
  counter : ℚ
  fetchedAt : Option ℚ
  captured : List TransformedPluginEvent
  scheduled : List (JobPayload × ℚ)
  exit : ExitKind

/-- One invocation of `importAndIngestEvents`, parameterized by the
fetch outcome (`fetch offset = none` models a query-execution error) and
the active transformation.  A transformation error propagates out of the
job uncaught, modelled as `Except.error`: nothing is captured, the
counter does not advance and nothing further is scheduled.  The
fetch-failure branch reproduces the source exactly: it schedules the
retry invocation carrying `{...payload, retriesPerformedSoFar + 1}` and
then, because the source does not return there, still increments the
counter and schedules the normal-cadence successor. -/
def runImport (cfg : RunConfig) (st : RunState) (payload : JobPayload)
    (fetch : ℚ → Option (List JsObj)) (tf : JsObj → Except String TransformedPluginEvent) :
    Except String RunResult :=
  if truthyOffset payload.offset ∧ payload.retriesPerformedSoFar ≥ 15 then
    Except.ok ⟨st.counter, none, [], [], ExitKind.abandoned⟩
  else
    if cfg.mechanism = ImportMechanism.historical ∧
        plannedOffset cfg st payload > st.totalRows then
      Except.ok ⟨st.counter, none, [], [], ExitKind.terminated⟩
    else
      match fetch (plannedOffset cfg st payload) with
      | none =>
        Except.ok ⟨st.counter + 1, some (plannedOffset cfg st payload), [],
          [(⟨payload.offset, payload.retriesPerformedSoFar + 1⟩,
              (nextRetrySeconds payload.retriesPerformedSoFar : ℚ)),
            (⟨none, 0⟩, cfg.frequency)],
          ExitKind.retry⟩
      | some rows =>
        match rows.mapM tf with
        | Except.error e => Except.error e
        | Except.ok events =>
          Except.ok ⟨st.counter + 1, some (plannedOffset cfg st payload), events,
            [(⟨none, 0⟩, cfg.frequency)], ExitKind.success⟩

/-! ### Shared helpers for the claim theorems -/

/-- A trivial transformation used to instantiate witnesses. -/
def constTransform : JsObj → Except String TransformedPluginEvent :=
  fun _ => Except.ok ⟨JsVal.str "e", []⟩

/-- A run that exits through the success branch fetched at the planned
offset and advanced the ephemeral counter by one. -/
theorem runImport_success_shape (cfg : RunConfig) (st : RunState) (p : JobPayload)
    (fetch : ℚ → Option (List JsObj)) (tf : JsObj → Except String TransformedPluginEvent)
    (res : RunResult) (h : runImport cfg st p fetch tf = Except.ok res)
    (he : res.exit = ExitKind.success) :
    res.fetchedAt = some (plannedOffset cfg st p) ∧ res.counter = st.counter + 1 := by
  unfold runImport at h
  split at h
  · injection h with h; subst h; simp at he
  · split at h
    · injection h with h; subst h; simp at he
    · split at h
      · injection h with h; subst h; simp at he
      · split at h
        · cases h
        · injection h with h; subst h; exact ⟨rfl, rfl⟩

/-! ### Claim theorems -/

/-- C1: the claim says a run whose fetch fails schedules only the retry
invocation and does not advance the ephemeral counter.  The source
instead falls through after scheduling the retry: evaluated at a fresh
invocation whose query fails, the run schedules two successors — the
retry in `3` seconds and the normal-cadence successor in `frequency`
seconds — and increments the ephemeral counter.  This contradicts the
claim's single-successor property; the spec's own design notes mark the
fall-through as unintended, so the code, not the claim, is at fault. -/
theorem importRun_fetchFailure_double_schedule :
    runImport ⟨10, 60, ImportMechanism.continuous⟩ ⟨0, 0, 100⟩ ⟨none, 0⟩ (fun _ => none)
      constTransform =
    Except.ok ⟨1, some 0, [], [(⟨none, 1⟩, 3), (⟨none, 0⟩, 60)], ExitKind.retry⟩ := by
  norm_num [runImport, plannedOffset, truthyOffset, nextRetrySeconds, constTransform]

/-- C2 counterexample: a retry invocation whose payload carries the
prior offset `0` with `retriesPerformedSoFar = 15` is NOT abandoned:
the truthiness test skips the abandonment check, the run fetches
(at the recomputed offset), advances the counter and schedules a
successor — contradicting the claim as stated for offset `0`. -/
theorem retry_cap_zero_offset_cx :
    runImport ⟨10, 60, ImportMechanism.continuous⟩ ⟨0, 0, 100⟩ ⟨some 0, 15⟩ (fun _ => some [])
      constTransform =
    Except.ok ⟨1, some 0, [], [(⟨none, 0⟩, 60)], ExitKind.success⟩ := by
  norm_num [runImport, plannedOffset, truthyOffset, constTransform, List.mapM,
    List.mapM.loop, pure, Except.pure]

/-- C2 (amended): for every retry invocation whose payload carries a
truthy (nonzero) prior offset and `retriesPerformedSoFar ≥ 15`, the run
is abandoned: it performs no fetch, emits nothing, schedules no
successor, and the ephemeral counter does not advance (hence the durable
offset, written from the counter at teardown, does not advance past
that offset either). -/
theorem retry_cap_abandons (cfg : RunConfig) (st : RunState) (payload : JobPayload)
    (fetch : ℚ → Option (List JsObj)) (tf : JsObj → Except String TransformedPluginEvent)
    (hoff : truthyOffset payload.offset = true)
    (hr : payload.retriesPerformedSoFar ≥ 15) :
    runImport cfg st payload fetch tf =
      Except.ok ⟨st.counter, none, [], [], ExitKind.abandoned⟩ := by
  simp [runImport, hoff, hr]

/-- Witness for the amended C2 theorem at a concrete input. -/
theorem retry_cap_abandons_witness :
    runImport ⟨10, 60, ImportMechanism.continuous⟩ ⟨0, 0, 100⟩ ⟨some 30, 15⟩ (fun _ => some [])
      constTransform =
    Except.ok ⟨0, none, [], [], ExitKind.abandoned⟩ :=
  retry_cap_abandons _ _ _ _ _ (by norm_num [truthyOffset]) (by norm_num)

/-- C3: the claim says the first fresh batch after a restart with
durable offset `O` is fetched at an offset no greater than `O`.  The
source seeds the cache counter with `O / batchSize` AND keeps
`initialOffset = O`, so the first fresh run computes
`O + (O / batchSize) * batchSize = 2 O`: with `O = 20`, `batchSize =
10`, the run fetches at `40 > 20`, silently skipping rows `20`–`39`.
This contradicts both the claim and the source's own comment that the
stored offset is "used for picking up where we left off", so the code,
not the claim, is at fault. -/
theorem restart_resume_skips_rows :
    runImport ⟨10, 60, ImportMechanism.continuous⟩
      ⟨setupInitialOffset 20, setupCacheCounter 20 10, 100⟩ ⟨none, 0⟩ (fun _ => some [])
      constTransform =
    Except.ok ⟨3, some 40, [], [(⟨none, 0⟩, 60)], ExitKind.success⟩ ∧ ¬((40 : ℚ) ≤ 20) := by
  norm_num [runImport, plannedOffset, truthyOffset, setupInitialOffset, setupCacheCounter,
    constTransform, List.mapM, List.mapM.loop, pure, Except.pure]

/-- C4: every retry scheduled by a fetch-failure run with
`retriesPerformedSoFar = n`, `n ≤ 14`, carries the delay `3 * 2 ^ n`
seconds and the incremented attempt count. -/
theorem retry_delay_exponential (cfg : RunConfig) (st : RunState) (payload : JobPayload)
    (fetch : ℚ → Option (List JsObj)) (tf : JsObj → Except String TransformedPluginEvent)
    (res : RunResult) (h : runImport cfg st payload fetch tf = Except.ok res)
    (he : res.exit = ExitKind.retry) (_hn : payload.retriesPerformedSoFar ≤ 14) :
    ∃ rest, res.scheduled =
      (⟨payload.offset, payload.retriesPerformedSoFar + 1⟩,
        ((3 * 2 ^ payload.retriesPerformedSoFar : ℕ) : ℚ)) :: rest := by
  unfold runImport at h
  split at h
  · injection h with h; subst h; simp at he
  · split at h
    · injection h with h; subst h; simp at he
    · split at h
      · injection h with h; subst h
        refine ⟨[(⟨none, 0⟩, cfg.frequency)], ?_⟩
        have hd : nextRetrySeconds payload.retriesPerformedSoFar =
            3 * 2 ^ payload.retriesPerformedSoFar := Nat.mul_comm _ _
        rw [hd]
      · split at h
        · cases h
        · injection h with h; subst h; simp at he

/-- Witness for C4 at `n = 4`: the retry is scheduled with delay 48 s. -/
theorem retry_delay_exponential_witness :
    ∃ rest, ([((⟨none, 5⟩ : JobPayload), (48 : ℚ)), (⟨none, 0⟩, 60)] :
        List (JobPayload × ℚ)) =
      (⟨none, 5⟩, ((3 * 2 ^ 4 : ℕ) : ℚ)) :: rest :=
  retry_delay_exponential ⟨10, 60, ImportMechanism.continuous⟩ ⟨0, 0, 100⟩ ⟨none, 4⟩
    (fun _ => none) constTransform
    ⟨1, some 0, [], [(⟨none, 5⟩, 48), (⟨none, 0⟩, 60)], ExitKind.retry⟩
    (by norm_num [runImport, plannedOffset, truthyOffset, nextRetrySeconds]) rfl
    (by norm_num)

/-- C5: in HISTORICAL mode, a run that is not abandoned and whose
computed offset exceeds the total-rows snapshot terminates immediately:
no fetch, no emission, no further self-scheduling, counter unchanged. -/
theorem historical_watermark_terminates (cfg : RunConfig) (st : RunState)
    (payload : JobPayload) (fetch : ℚ → Option (List JsObj))
    (tf : JsObj → Except String TransformedPluginEvent)
    (hmech : cfg.mechanism = ImportMechanism.historical)
    (hnab : ¬(truthyOffset payload.offset ∧ payload.retriesPerformedSoFar ≥ 15))
    (hover : plannedOffset cfg st payload > st.totalRows) :
    runImport cfg st payload fetch tf =
      Except.ok ⟨st.counter, none, [], [], ExitKind.terminated⟩ := by
  simp [runImport, hnab, hmech, hover]

/-- Witness for C5: snapshot 15, fresh run at offset 20. -/
theorem historical_watermark_terminates_witness :
    runImport ⟨10, 60, ImportMechanism.historical⟩ ⟨0, 2, 15⟩ ⟨none, 0⟩ (fun _ => some [])
      constTransform =
    Except.ok ⟨2, none, [], [], ExitKind.terminated⟩ :=
  historical_watermark_terminates _ _ _ _ _ rfl (by norm_num [truthyOffset])
    (by norm_num [plannedOffset, truthyOffset])

/-- C6: for two consecutive successful fresh (non-retry) batches within
one process lifetime (same `initialOffset`, counter carried over from
the first run), the second batch's fetch offset is exactly the first
batch's offset plus the batch size: no gap and no overlap. -/
theorem consecutive_fresh_batches (cfg : RunConfig) (st : RunState)
    (p p' : JobPayload) (fetch fetch' : ℚ → Option (List JsObj))
    (tf tf' : JsObj → Except String TransformedPluginEvent) (res res' : RunResult)
    (hp : p.offset = none) (hp' : p'.offset = none)
    (h1 : runImport cfg st p fetch tf = Except.ok res)
    (he1 : res.exit = ExitKind.success)
    (h2 : runImport cfg ⟨st.initialOffset, res.counter, st.totalRows⟩ p' fetch' tf' =
      Except.ok res')
    (he2 : res'.exit = ExitKind.success) :
    ∃ o, res.fetchedAt = some o ∧ res'.fetchedAt = some (o + cfg.batchSize) := by
  obtain ⟨hf1, hc1⟩ := runImport_success_shape cfg st p fetch tf res h1 he1
  obtain ⟨hf2, hc2⟩ := runImport_success_shape _ _ p' fetch' tf' res' h2 he2
  refine ⟨plannedOffset cfg st p, hf1, ?_⟩
  rw [hf2]
  congr 1
  simp [plannedOffset, hp, hp', truthyOffset, hc1]
  ring

/-- Witness for C6: two successful empty batches at offsets 0 and 10. -/
theorem consecutive_fresh_batches_witness :
    ∃ o : ℚ, some (0 : ℚ) = some o ∧ some (10 : ℚ) = some (o + (10 : ℚ)) :=
  consecutive_fresh_batches ⟨10, 60, ImportMechanism.continuous⟩ ⟨0, 0, 100⟩
    ⟨none, 0⟩ ⟨none, 0⟩ (fun _ => some []) (fun _ => some []) constTransform constTransform
    ⟨1, some 0, [], [(⟨none, 0⟩, 60)], ExitKind.success⟩
    ⟨2, some 10, [], [(⟨none, 0⟩, 60)], ExitKind.success⟩
    rfl rfl
    (by norm_num [runImport, plannedOffset, truthyOffset, constTransform, List.mapM,
      List.mapM.loop, pure, Except.pure])
    rfl
    (by norm_num [runImport, plannedOffset, truthyOffset, constTransform, List.mapM,
      List.mapM.loop, pure, Except.pure])
    rfl

/-- C7 counterexample: the teardown path caps the stored value at
`totalRows`, so persisting a worker offset `50` (counter 5, batch size
10) against `totalRows = 30` reloads as `30`, not `50` — the round-trip
claim fails for offsets beyond the snapshot. -/
theorem persist_roundtrip_cx :
    loadInitialOffset (teardownStoredOffset 5 10 30) = 30 ∧
      ¬(loadInitialOffset (teardownStoredOffset 5 10 30) = 5 * 10) := by
  norm_num [loadInitialOffset, teardownStoredOffset]

/-- C7 (amended): for every worker offset `counter * batchSize` that
does not exceed `totalRows`, persisting through the teardown path and
reloading via the startup read yields the offset unchanged; an
overshoot is clamped to `totalRows`. -/
theorem persist_load_roundtrip (counter batchSize totalRows : ℚ)
    (h : counter * batchSize ≤ totalRows) :
    loadInitialOffset (teardownStoredOffset counter batchSize totalRows) =
      counter * batchSize := by
  unfold loadInitialOffset teardownStoredOffset
  simp only []
  rw [if_neg (not_lt.mpr h)]

/-- Witness for the amended C7 theorem: offset 20 round-trips against a
snapshot of 30. -/
theorem persist_load_roundtrip_witness :
    loadInitialOffset (teardownStoredOffset 2 10 30) = 2 * 10 :=
  persist_load_roundtrip 2 10 30 (by norm_num)

/-- C8: the default transform maps the scenario row to the claimed
event: `timestamp` and `distinct_id` nested under `properties`, the
JSON-encoded `properties` column parsed and merged, `source` tagged. -/
theorem default_transform_scenario :
    defaultTransform [("event", JsVal.str "click"), ("timestamp", JsVal.str "2023-01-01"),
      ("distinct_id", JsVal.str "u1"), ("properties", JsVal.str "\x7b\"a\":1\x7d")] =
    Except.ok ⟨JsVal.str "click",
      [("timestamp", JsVal.str "2023-01-01"), ("distinct_id", JsVal.str "u1"),
        ("a", JsVal.num 1), ("source", JsVal.str "snowflake_import")]⟩ := rfl

/-- C9: for every row, the JSON Map transform without the
`rowToEventMap` attachment and the Cleaned-Up Properties transform
without the `propertyConfigJson` attachment each raise a fatal error at
invocation — no event is returned and the row is not silently
skipped. -/
theorem missing_attachment_fatal (row : JsObj) :
    jsonMapTransform none row =
        Except.error "Row to event mapping JSON file not provided!" ∧
      cleanedUpTransform none row =
        Except.error "Configuration JSON file not provided!" :=
  ⟨rfl, rfl⟩

/-- C10: a retry invocation whose payload carries `offset = 0` is
treated as a fresh batch: the abandonment check never fires (the offset
is tested for truthiness, and `0` is falsy), and the offset actually
fetched is recomputed from `initialOffset` and the ephemeral counter
rather than reusing the payload's `0`. -/
theorem zero_offset_retry_treated_as_fresh (cfg : RunConfig) (st : RunState) (r : Nat)
    (fetch : ℚ → Option (List JsObj)) (tf : JsObj → Except String TransformedPluginEvent)
    (res : RunResult) (h : runImport cfg st ⟨some 0, r⟩ fetch tf = Except.ok res) :
    res.exit ≠ ExitKind.abandoned ∧
      plannedOffset cfg st ⟨some 0, r⟩ = st.initialOffset + st.counter * cfg.batchSize := by
  refine ⟨?_, by simp [plannedOffset, truthyOffset]⟩
  unfold runImport at h
  have ht : truthyOffset (some (0 : ℚ)) = false := by decide
  rw [ht] at h
  simp only [Bool.false_eq_true, false_and, if_false] at h
  split at h
  · injection h with h; subst h; simp
  · split at h
    · injection h with h; subst h; simp
    · split at h
      · cases h
      · injection h with h; subst h; simp

/-- Witness for C10: a zero-offset payload at the retry ceiling still
fetches and succeeds. -/
theorem zero_offset_retry_treated_as_fresh_witness :
    ExitKind.success ≠ ExitKind.abandoned ∧
      plannedOffset ⟨10, 60, ImportMechanism.continuous⟩ ⟨0, 0, 100⟩ ⟨some 0, 15⟩ =
        (0 : ℚ) + (0 : ℚ) * (10 : ℚ) :=
  zero_offset_retry_treated_as_fresh ⟨10, 60, ImportMechanism.continuous⟩ ⟨0, 0, 100⟩ 15
    (fun _ => some []) constTransform
    ⟨1, some 0, [], [(⟨none, 0⟩, 60)], ExitKind.success⟩
    (by norm_num [runImport, plannedOffset, truthyOffset, constTransform, List.mapM,
      List.mapM.loop, pure, Except.pure])
